import Mathlib

/-!
Shallow embedding of `src/wrapper.py` (class `ClassificationModelWrapper`), the
training-loop orchestrator of the cifar10-model repository.

Modelling choices:
  - Python floats are modelled as rationals (`ℚ`); all comparisons in the
    early-stopping policy are order comparisons on `ℚ`.
  - The external collaborators (model forward pass, criterion, accuracy
    metric, optimizer) are abstracted: a batch of a data-loader pass is
    represented by the per-batch mean loss and accuracy values that the
    surrounding loop reads via `.item()`, and the optimizer update performed
    per training batch is an abstract function on an abstract parameter
    type `α` (the model parameter state, i.e. what `state_dict()` captures).
  - Fallible code (`ZeroDivisionError` on an empty loader, `RuntimeError` on
    a bad selector string) is modelled with `Except String`.
  - The epoch driver `train` is embedded with oracles giving, per epoch, the
    metric pairs produced by the train pass and the test pass, and the model
    parameter state after that epoch of training; the loop state additionally
    records event traces (which epochs ran a train pass / a test pass).
-/

namespace Wrapper

/-- One batch of a data-loader pass, abstracted to the per-batch mean loss
and per-batch accuracy that the loops of `_train_step` and `_test_step`
accumulate via `.item()`. -/
structure BatchMetrics where
  loss : ℚ
  acc : ℚ
deriving DecidableEq

/-- Running state of one pass over a data loader: the model parameter state
(abstract type `α`) and the two accumulators (`train_loss`/`train_acc` in
`_train_step`, `test_loss`/`test_acc` in `_test_step`). -/
structure PassState (α : Type) where
  params : α
  loss : ℚ
  acc : ℚ
deriving DecidableEq

/-- Body of the `for` loop of `_train_step` (src/wrapper.py lines 162-180):
accumulate the batch loss and the batch accuracy, then
`optimizer.zero_grad()` / `backward()` / `optimizer.step()`, i.e. one
abstract optimizer update `optStep` of the model parameters. -/
def trainBatchBody {α : Type} (optStep : α → BatchMetrics → α)
    (s : PassState α) (b : BatchMetrics) : PassState α :=
  { params := optStep s.params b, loss := s.loss + b.loss, acc := s.acc + b.acc }

/-- Body of the `for` loop of `_test_step` (src/wrapper.py lines 197-211):
runs under `torch.inference_mode()` with `self.model.eval()`; it accumulates
the batch loss and the batch accuracy and performs no backward pass and no
optimizer step (the parameter component is carried through unchanged). -/
def testBatchBody {α : Type} (s : PassState α) (b : BatchMetrics) : PassState α :=
  { params := s.params, loss := s.loss + b.loss, acc := s.acc + b.acc }

/-- One full pass over the train loader in iterator order
(src/wrapper.py lines 162-180). -/
def trainPass {α : Type} (optStep : α → BatchMetrics → α)
    (batches : List BatchMetrics) (s : PassState α) : PassState α :=
  batches.foldl (trainBatchBody optStep) s

/-- One full pass over the test loader in iterator order
(src/wrapper.py lines 197-211). -/
def testPass {α : Type} (batches : List BatchMetrics) (s : PassState α) : PassState α :=
  batches.foldl testBatchBody s

/-- `_train_step` (src/wrapper.py lines 154-185): start both accumulators at
0, run one full pass over the train loader, then divide each accumulator by
`len(self.train_loader)`. Python raises `ZeroDivisionError` when the loader
yields zero batches. Returns the metric pair together with the updated model
parameters. -/
def train_step {α : Type} (optStep : α → BatchMetrics → α)
    (batches : List BatchMetrics) (p : α) : Except String ((ℚ × ℚ) × α) :=
  let s := trainPass optStep batches { params := p, loss := 0, acc := 0 }
  if batches.length = 0 then Except.error "ZeroDivisionError"
  else Except.ok ((s.loss / (batches.length : ℚ), s.acc / (batches.length : ℚ)), s.params)

/-- Metric computation of `_test_step` (src/wrapper.py lines 193-214): start
both accumulators at 0, run one full pass over the test loader under
`inference_mode`, then divide each accumulator by `len(self.test_loader)`.
Python raises `ZeroDivisionError` when the loader yields zero batches.
Returns the metric pair together with the model parameters after the pass. -/
def test_step_metrics {α : Type} (batches : List BatchMetrics) (p : α) :
    Except String ((ℚ × ℚ) × α) :=
  let s := testPass batches { params := p, loss := 0, acc := 0 }
  if batches.length = 0 then Except.error "ZeroDivisionError"
  else Except.ok ((s.loss / (batches.length : ℚ), s.acc / (batches.length : ℚ)), s.params)

/-- Architecture selectors accepted by `load_model`
(src/wrapper.py lines 86-97). -/
inductive ModelArch
  | efficientnet_b0
  | alexnet
  | vgg11
  | vgg11_bn
deriving DecidableEq

/-- Selector dispatch of `load_model` (src/wrapper.py lines 86-99): the
`if`/`elif` chain on the `model` string; an unsupported value raises
`RuntimeError` with the literal message below. -/
def load_model (model : String) : Except String ModelArch :=
  if model = "efficientnet_b0" then Except.ok ModelArch.efficientnet_b0
  else if model = "alexnet" then Except.ok ModelArch.alexnet
  else if model = "vgg11" then Except.ok ModelArch.vgg11
  else if model = "vgg11_bn" then Except.ok ModelArch.vgg11_bn
  else Except.error "Incorrect `model` parameter. Check type hint."

/-- Optimizer selectors accepted by `init_optim`
(src/wrapper.py lines 146-151). -/
inductive OptimKind
  | SGD
  | Adam
deriving DecidableEq

/-- Selector dispatch of `init_optim` (src/wrapper.py lines 146-151): the
`if`/`elif` chain on the `optimizer` string; an unsupported value raises
`RuntimeError` with the literal message below. -/
def init_optim (optimizer : String) : Except String OptimKind :=
  if optimizer = "Adam" then Except.ok OptimKind.Adam
  else if optimizer = "SGD" then Except.ok OptimKind.SGD
  else Except.error "Incorrect `optimizer` parameter. Check type hint."

/-- `strMentions needle haystack` decides whether `needle` occurs as a
contiguous substring of `haystack` (used to express that an error message
does or does not name a given value). -/
def strMentions (needle haystack : String) : Bool :=
  let n := needle.toList
  let h := haystack.toList
  (List.range (h.length + 1)).any (fun i => (h.drop i).take n.length == n)

/-- A checkpoint written by
`torch.save(self.model.state_dict(), self.PATH / ...)` at src/wrapper.py
line 225: the saved model parameter state (`data`) together with the three
values the file name is built from. -/
structure Checkpoint (α : Type) where
  epoch : ℕ
  test_loss : ℚ
  test_acc : ℚ
  data : α
deriving DecidableEq

/-- File name of a checkpoint, from the f-string at src/wrapper.py line 225:
the epoch index, the raw mean test loss and the raw mean test accuracy,
joined by underscores, with the `.pth` extension. -/
def Checkpoint.path {α : Type} (c : Checkpoint α) : String :=
  toString c.epoch ++ "_" ++ toString c.test_loss ++ "_" ++ toString c.test_acc ++ ".pth"

/-- Mutable early-stopping state touched by the policy tail of `_test_step`:
`self.patience_curr`, `self.patience_ended`, and the list of checkpoints
written so far. -/
structure PolicyState (α : Type) where
  patience_curr : ℕ
  patience_ended : Bool
  checkpoints : List (Checkpoint α)
deriving DecidableEq

/-- Early-stopping / checkpoint policy at the end of `_test_step`
(src/wrapper.py lines 216-225), with `m` the model parameter state that
`self.model.state_dict()` would capture at save time.  The whole block is
skipped when `self.PATIENCE is None`; otherwise, if the previous loss is
strictly below the new loss and the epoch is not 0, the patience counter is
incremented (and the ended flag set exactly when the counter equals the
limit); otherwise, if the previous loss is strictly above the new loss, the
counter resets to 0 and a checkpoint is saved; otherwise nothing happens. -/
def test_step_policy {α : Type} (PATIENCE : Option ℕ) (epoch : ℕ)
    (test_loss_previous test_loss test_acc : ℚ) (m : α)
    (s : PolicyState α) : PolicyState α :=
  match PATIENCE with
  | none => s
  | some P =>
    if test_loss_previous < test_loss ∧ epoch ≠ 0 then
      { s with
        patience_curr := s.patience_curr + 1,
        patience_ended := if s.patience_curr + 1 = P then true else s.patience_ended }
    else if test_loss_previous > test_loss then
      { s with
        patience_curr := 0,
        checkpoints := s.checkpoints ++ [⟨epoch, test_loss, test_acc, m⟩] }
    else s

/-- One row appended to `results` at src/wrapper.py line 260. -/
structure EpochRecord where
  epoch : ℕ
  train_loss : ℚ
  train_acc : ℚ
  test_loss : ℚ
  test_acc : ℚ
deriving DecidableEq

/-- Column names of the history DataFrame returned by `train`
(src/wrapper.py line 263). -/
def historyColumns : List String :=
  ["epoch", "train_loss", "train_acc", "test_loss", "test_acc"]

/-- State threaded through the epoch loop of `train` (src/wrapper.py lines
239-261), extended with event traces: `trained` records the epochs on which
`_train_step` ran, `tested` the epochs on which `_test_step` ran. -/
structure LoopState (α : Type) where
  patience_curr : ℕ
  patience_ended : Bool
  test_loss : ℚ
  results : List EpochRecord
  checkpoints : List (Checkpoint α)
  trained : List ℕ
  tested : List ℕ
deriving DecidableEq

/-- Initial loop state of `train` (src/wrapper.py lines 239-244):
`patience_curr = 0`, `patience_ended = False`, the test-loss variable starts
at the sentinel 0, and no results, checkpoints or events exist yet. -/
def initLoopState {α : Type} : LoopState α :=
  { patience_curr := 0, patience_ended := false, test_loss := 0,
    results := [], checkpoints := [], trained := [], tested := [] }

/-- Body of one non-stopped iteration of the epoch loop of `train`
(src/wrapper.py lines 246-261).  `tm e` and `tsm e` are the metric pairs
returned by `_train_step` and `_test_step` at epoch `e`; `ms e` is the model
parameter state after the training pass of epoch `e`.  The train step always
runs; when `e % TEST_EVERY == 0` the test step runs: the previous value of
the `test_loss` variable is passed to the policy as `test_loss_previous`,
the variable is overwritten with the new loss, and a row is appended to
`results`. -/
def epochStep {α : Type} (cfg_TEST_EVERY : ℕ) (cfg_PATIENCE : Option ℕ)
    (tm tsm : ℕ → ℚ × ℚ) (ms : ℕ → α) (e : ℕ) (s : LoopState α) : LoopState α :=
  let s1 : LoopState α := { s with trained := s.trained ++ [e] }
  if e % cfg_TEST_EVERY = 0 then
    let p := test_step_policy cfg_PATIENCE e s1.test_loss (tsm e).1 (tsm e).2 (ms e)
      { patience_curr := s1.patience_curr, patience_ended := s1.patience_ended,
        checkpoints := s1.checkpoints }
    { s1 with
      patience_curr := p.patience_curr,
      patience_ended := p.patience_ended,
      test_loss := (tsm e).1,
      results := s1.results ++ [⟨e, (tm e).1, (tm e).2, (tsm e).1, (tsm e).2⟩],
      checkpoints := p.checkpoints,
      tested := s1.tested ++ [e] }
  else s1

/-- The epoch loop of `train` (src/wrapper.py lines 246-261), with `e` the
next epoch index and `r` the number of loop iterations left: at the top of
each iteration, if `self.patience_ended` is set the loop breaks; otherwise
the epoch body runs and the loop continues. -/
def runFrom {α : Type} (cfg_TEST_EVERY : ℕ) (cfg_PATIENCE : Option ℕ)
    (tm tsm : ℕ → ℚ × ℚ) (ms : ℕ → α) : ℕ → ℕ → LoopState α → LoopState α
  | _, 0, s => s
  | e, r + 1, s =>
    if s.patience_ended then s
    else runFrom cfg_TEST_EVERY cfg_PATIENCE tm tsm ms (e + 1) r
      (epochStep cfg_TEST_EVERY cfg_PATIENCE tm tsm ms e s)

/-- `train(EPOCHS, TEST_EVERY, PATIENCE)` (src/wrapper.py lines 230-264):
initialise the loop state and run the epoch loop over
`range(EPOCHS)` starting at epoch 0. -/
def train {α : Type} (EPOCHS TEST_EVERY : ℕ) (PATIENCE : Option ℕ)
    (tm tsm : ℕ → ℚ × ℚ) (ms : ℕ → α) : LoopState α :=
  runFrom TEST_EVERY PATIENCE tm tsm ms 0 EPOCHS initLoopState

lemma trainPass_params {α : Type} (optStep : α → BatchMetrics → α)
    (batches : List BatchMetrics) (s : PassState α) :
    (trainPass optStep batches s).params = batches.foldl optStep s.params := by
  induction batches generalizing s with
  | nil => rfl
  | cons b bs ih => simpa [trainPass, trainBatchBody] using ih _

lemma trainPass_loss {α : Type} (optStep : α → BatchMetrics → α)
    (batches : List BatchMetrics) (s : PassState α) :
    (trainPass optStep batches s).loss
      = s.loss + (batches.map BatchMetrics.loss).sum := by
  induction batches generalizing s with
  | nil => simp [trainPass]
  | cons b bs ih =>
      simp only [trainPass, List.foldl_cons, List.map_cons, List.sum_cons] at *
      rw [ih]
      simp [trainBatchBody, add_assoc]

lemma trainPass_acc {α : Type} (optStep : α → BatchMetrics → α)
    (batches : List BatchMetrics) (s : PassState α) :
    (trainPass optStep batches s).acc
      = s.acc + (batches.map BatchMetrics.acc).sum := by
  induction batches generalizing s with
  | nil => simp [trainPass]
  | cons b bs ih =>
      simp only [trainPass, List.foldl_cons, List.map_cons, List.sum_cons] at *
      rw [ih]
      simp [trainBatchBody, add_assoc]

lemma testPass_params {α : Type} (batches : List BatchMetrics) (s : PassState α) :
    (testPass batches s).params = s.params := by
  induction batches generalizing s with
  | nil => rfl
  | cons b bs ih => simpa [testPass, testBatchBody] using ih _

lemma testPass_loss {α : Type} (batches : List BatchMetrics) (s : PassState α) :
    (testPass batches s).loss = s.loss + (batches.map BatchMetrics.loss).sum := by
  induction batches generalizing s with
  | nil => simp [testPass]
  | cons b bs ih =>
      simp only [testPass, List.foldl_cons, List.map_cons, List.sum_cons] at *
      rw [ih]
      simp [testBatchBody, add_assoc]

lemma testPass_acc {α : Type} (batches : List BatchMetrics) (s : PassState α) :
    (testPass batches s).acc = s.acc + (batches.map BatchMetrics.acc).sum := by
  induction batches generalizing s with
  | nil => simp [testPass]
  | cons b bs ih =>
      simp only [testPass, List.foldl_cons, List.map_cons, List.sum_cons] at *
      rw [ih]
      simp [testBatchBody, add_assoc]

/-- C7: for every non-empty data iterator, the loss and accuracy returned by
the train step and by the eval step equal the sum of the per-batch values,
accumulated over one full pass in iterator order, divided by the number of
batches (an arithmetic mean of the per-batch means). -/
theorem C7_mean_over_batches {α : Type} (optStep : α → BatchMetrics → α)
    (batches : List BatchMetrics) (p : α) (h : batches ≠ []) :
    train_step optStep batches p
      = Except.ok (((batches.map BatchMetrics.loss).sum / (batches.length : ℚ),
                    (batches.map BatchMetrics.acc).sum / (batches.length : ℚ)),
                   (trainPass optStep batches { params := p, loss := 0, acc := 0 }).params) ∧
    test_step_metrics batches p
      = Except.ok (((batches.map BatchMetrics.loss).sum / (batches.length : ℚ),
                    (batches.map BatchMetrics.acc).sum / (batches.length : ℚ)), p) := by
  have hlen : ¬ batches.length = 0 := by simpa using h
  constructor
  · simp [train_step, hlen, trainPass_loss, trainPass_acc]
  · simp [test_step_metrics, hlen, testPass_loss, testPass_acc, testPass_params]

/-- Witness for C7 at a concrete two-batch iterator. -/
theorem C7_mean_over_batches_witness :
    train_step (fun (p : ℕ) _ => p + 1) [⟨1, 0⟩, ⟨2, 1⟩] 0
      = Except.ok (((([⟨1, 0⟩, ⟨2, 1⟩] : List BatchMetrics).map BatchMetrics.loss).sum
                      / (([⟨1, 0⟩, ⟨2, 1⟩] : List BatchMetrics).length : ℚ),
                    (([⟨1, 0⟩, ⟨2, 1⟩] : List BatchMetrics).map BatchMetrics.acc).sum
                      / (([⟨1, 0⟩, ⟨2, 1⟩] : List BatchMetrics).length : ℚ)),
                   (trainPass (fun (p : ℕ) _ => p + 1) [⟨1, 0⟩, ⟨2, 1⟩]
                      { params := 0, loss := 0, acc := 0 }).params) ∧
    test_step_metrics [⟨1, 0⟩, ⟨2, 1⟩] (0 : ℕ)
      = Except.ok (((([⟨1, 0⟩, ⟨2, 1⟩] : List BatchMetrics).map BatchMetrics.loss).sum
                      / (([⟨1, 0⟩, ⟨2, 1⟩] : List BatchMetrics).length : ℚ),
                    (([⟨1, 0⟩, ⟨2, 1⟩] : List BatchMetrics).map BatchMetrics.acc).sum
                      / (([⟨1, 0⟩, ⟨2, 1⟩] : List BatchMetrics).length : ℚ)), 0) :=
  C7_mean_over_batches (fun (p : ℕ) _ => p + 1) [⟨1, 0⟩, ⟨2, 1⟩] 0 (by decide)

/-- C8: the eval pass never mutates the model parameters — after a full test
pass the parameter component of the state is unchanged — while the parameter
change of the train pass is exactly the per-batch optimizer updates folded
over the batches in iterator order (only the train step mutates
parameters). -/
theorem C8_eval_never_mutates {α : Type} (optStep : α → BatchMetrics → α)
    (batches : List BatchMetrics) (s : PassState α) :
    (testPass batches s).params = s.params ∧
    (trainPass optStep batches s).params = batches.foldl optStep s.params :=
  ⟨testPass_params batches s, trainPass_params optStep batches s⟩

/-- C10: on an iterator that yields zero batches, both the train step and the
eval step fail with a division by zero when computing the mean over
batches. -/
theorem C10_empty_iterator_divzero {α : Type} (optStep : α → BatchMetrics → α) (p : α) :
    train_step optStep [] p = Except.error "ZeroDivisionError" ∧
    test_step_metrics ([] : List BatchMetrics) p = Except.error "ZeroDivisionError" :=
  ⟨rfl, rfl⟩

/-- C9 counterexample: for the unsupported selector string "resnet50",
`load_model` raises, but the error message does not name the invalid value —
it only names the parameter.  (Similarly for `init_optim`.) -/
theorem C9_counterexample :
    load_model "resnet50" = Except.error "Incorrect `model` parameter. Check type hint." ∧
    strMentions "resnet50" "Incorrect `model` parameter. Check type hint." = false ∧
    init_optim "RMSprop" = Except.error "Incorrect `optimizer` parameter. Check type hint." ∧
    strMentions "RMSprop" "Incorrect `optimizer` parameter. Check type hint." = false := by
  refine ⟨by rfl, by rfl, by rfl, by rfl⟩

/-- C9 amended: for every model selector outside the four supported
architectures and every optimizer selector outside SGD and Adam, setup
raises an error before any training begins, and the error message names the
offending parameter (`model` resp. `optimizer`) — not the invalid value;
for every supported selector, no error is raised at setup. -/
theorem C9_amended (m o : String)
    (hm : m ≠ "efficientnet_b0" ∧ m ≠ "alexnet" ∧ m ≠ "vgg11" ∧ m ≠ "vgg11_bn")
    (ho : o ≠ "SGD" ∧ o ≠ "Adam") :
    (load_model m = Except.error "Incorrect `model` parameter. Check type hint." ∧
     strMentions "model" "Incorrect `model` parameter. Check type hint." = true) ∧
    (init_optim o = Except.error "Incorrect `optimizer` parameter. Check type hint." ∧
     strMentions "optimizer" "Incorrect `optimizer` parameter. Check type hint." = true) ∧
    (∀ m2, (m2 = "efficientnet_b0" ∨ m2 = "alexnet" ∨ m2 = "vgg11" ∨ m2 = "vgg11_bn") →
      ∃ a, load_model m2 = Except.ok a) ∧
    (∀ o2, (o2 = "SGD" ∨ o2 = "Adam") → ∃ b, init_optim o2 = Except.ok b) := by
  obtain ⟨hm1, hm2, hm3, hm4⟩ := hm
  obtain ⟨ho1, ho2⟩ := ho
  refine ⟨⟨by simp [load_model, hm1, hm2, hm3, hm4], by rfl⟩,
          ⟨by simp [init_optim, ho1, ho2], by rfl⟩, ?_, ?_⟩
  · intro m2 hm2'
    rcases hm2' with h | h | h | h <;> subst h <;> exact ⟨_, rfl⟩
  · intro o2 ho2'
    rcases ho2' with h | h <;> subst h <;> exact ⟨_, rfl⟩

/-- Witness for C9 amended at the concrete invalid selectors "resnet50" and
"RMSprop". -/
theorem C9_amended_witness :
    (load_model "resnet50" = Except.error "Incorrect `model` parameter. Check type hint." ∧
     strMentions "model" "Incorrect `model` parameter. Check type hint." = true) ∧
    (init_optim "RMSprop" = Except.error "Incorrect `optimizer` parameter. Check type hint." ∧
     strMentions "optimizer" "Incorrect `optimizer` parameter. Check type hint." = true) ∧
    (∀ m2, (m2 = "efficientnet_b0" ∨ m2 = "alexnet" ∨ m2 = "vgg11" ∨ m2 = "vgg11_bn") →
      ∃ a, load_model m2 = Except.ok a) ∧
    (∀ o2, (o2 = "SGD" ∨ o2 = "Adam") → ∃ b, init_optim o2 = Except.ok b) :=
  C9_amended "resnet50" "RMSprop"
    ⟨by decide, by decide, by decide, by decide⟩ ⟨by decide, by decide⟩

/-- C1 counterexample: at the very first evaluation (epoch 0), against the
sentinel previous loss 0, the comparison is NOT skipped entirely: with a
negative test loss the checkpoint branch `test_loss_previous > test_loss`
still fires and a checkpoint IS persisted.  Only the increment comparison is
guarded by `self.epoch != 0`. -/
theorem C1_counterexample :
    (test_step_policy (some 2) 0 0 (-1 : ℚ) 0 (0 : ℕ) ⟨0, false, []⟩).checkpoints ≠ [] := by
  decide

/-- C1 amended: at the very first evaluation (epoch 0), against the sentinel
previous loss 0, the patience counter is not incremented, and — provided the
test loss is not negative, i.e. not strictly below the sentinel — no
checkpoint is persisted and the policy state is completely unchanged. -/
theorem C1_amended {α : Type} (P : ℕ) (loss acc : ℚ) (m : α)
    (s : PolicyState α) (h : 0 ≤ loss) :
    test_step_policy (some P) 0 0 loss acc m s = s := by
  have h1 : ¬ ((0 : ℚ) < loss ∧ (0 : ℕ) ≠ 0) := by simp
  have h2 : ¬ ((0 : ℚ) > loss) := not_lt.mpr h
  simp [test_step_policy, h1, h2]

/-- Witness for C1 amended at epoch 0 with loss 5. -/
theorem C1_amended_witness :
    test_step_policy (some 3) 0 0 (5 : ℚ) 0 (0 : ℕ) ⟨0, false, []⟩ = ⟨0, false, []⟩ :=
  C1_amended 3 5 0 0 ⟨0, false, []⟩ (by decide)

/-- C2 counterexample: on a non-first epoch, a new test loss EQUAL to the
previous one does not increment the patience counter (the code increments
only on `test_loss_previous < test_loss`), contradicting the claimed
greater-or-equal condition. -/
theorem C2_counterexample :
    ¬ ((test_step_policy (some 5) 1 (1 : ℚ) 1 0 (0 : ℕ) ⟨3, false, []⟩).patience_curr
        = 3 + 1) := by
  decide

/-- C2 amended: for every scheduled evaluation on a non-first epoch, with
early stopping configured, the patience counter increments by 1 exactly when
the new test loss is STRICTLY greater than the previous recorded test loss
(a tie does not increment). -/
theorem C2_amended {α : Type} (P e : ℕ) (prev loss acc : ℚ) (m : α)
    (s : PolicyState α) (he : e ≠ 0) (hgt : prev < loss) :
    (test_step_policy (some P) e prev loss acc m s).patience_curr
      = s.patience_curr + 1 := by
  simp [test_step_policy, hgt, he]

/-- Witness for C2 amended: epoch 1, loss rises from 1 to 2, counter 3 → 4. -/
theorem C2_amended_witness :
    (test_step_policy (some 9) 1 (1 : ℚ) 2 0 (0 : ℕ) ⟨3, false, []⟩).patience_curr
      = 3 + 1 :=
  C2_amended 9 1 1 2 0 0 ⟨3, false, []⟩ (by decide) (by decide)

/-- C3: on a non-first epoch, a new test loss exactly equal to the previous
recorded test loss leaves the policy state completely unchanged: the
patience counter is neither reset nor incremented, the ended flag is
untouched, and no checkpoint is written. -/
theorem C3_tie_noop {α : Type} (P : Option ℕ) (e : ℕ) (loss acc : ℚ) (m : α)
    (s : PolicyState α) (he : e ≠ 0) :
    test_step_policy P e loss loss acc m s = s := by
  cases P with
  | none => rfl
  | some P =>
      have h1 : ¬ (loss < loss ∧ e ≠ 0) := by simp
      have h2 : ¬ (loss > loss) := by simp
      simp [test_step_policy, h1, h2]

/-- Witness for C3 at epoch 2 with tied losses. -/
theorem C3_tie_noop_witness :
    test_step_policy (some 4) 2 (7 : ℚ) 7 (1 : ℚ) (0 : ℕ) ⟨2, false, []⟩
      = ⟨2, false, []⟩ :=
  C3_tie_noop (some 4) 2 7 1 0 ⟨2, false, []⟩ (by decide)

/-- C4: for every scheduled evaluation with early stopping configured whose
new test loss is strictly below the previous recorded test loss, the
patience counter resets to 0 and a checkpoint holding the complete model
parameter state is appended, whose file name is built from the epoch index,
the raw mean test loss and the raw mean test accuracy as
epoch, underscore, loss, underscore, accuracy, plus the `.pth` extension. -/
theorem C4_improvement_checkpoint {α : Type} (P e : ℕ) (prev loss acc : ℚ)
    (m : α) (s : PolicyState α) (h : loss < prev) :
    (test_step_policy (some P) e prev loss acc m s).patience_curr = 0 ∧
    (test_step_policy (some P) e prev loss acc m s).checkpoints
      = s.checkpoints ++ [⟨e, loss, acc, m⟩] ∧
    (⟨e, loss, acc, m⟩ : Checkpoint α).path
      = toString e ++ "_" ++ toString loss ++ "_" ++ toString acc ++ ".pth" := by
  have h1 : ¬ (prev < loss ∧ e ≠ 0) := by
    rintro ⟨hc, -⟩
    exact absurd h (not_lt.mpr hc.le)
  have h2 : prev > loss := h
  refine ⟨?_, ?_, rfl⟩ <;> simp [test_step_policy, h1, h2]

/-- Witness for C4: epoch 3, loss improves from 2 to 3/2, counter 5 resets
to 0 and the checkpoint for epoch 3 is written. -/
theorem C4_improvement_checkpoint_witness :
    (test_step_policy (some 9) 3 (2 : ℚ) (3 / 2) (4 / 5) (7 : ℕ) ⟨5, false, []⟩).patience_curr
      = 0 ∧
    (test_step_policy (some 9) 3 (2 : ℚ) (3 / 2) (4 / 5) (7 : ℕ) ⟨5, false, []⟩).checkpoints
      = [] ++ [⟨3, 3 / 2, 4 / 5, 7⟩] ∧
    (⟨3, 3 / 2, 4 / 5, 7⟩ : Checkpoint ℕ).path
      = toString 3 ++ "_" ++ toString ((3 : ℚ) / 2) ++ "_" ++ toString ((4 : ℚ) / 5) ++ ".pth" :=
  C4_improvement_checkpoint 9 3 2 (3 / 2) (4 / 5) 7 ⟨5, false, []⟩ (by norm_num)

lemma epochStep_trained {α : Type} (T : ℕ) (P : Option ℕ) (tm tsm : ℕ → ℚ × ℚ)
    (ms : ℕ → α) (e : ℕ) (s : LoopState α) :
    (epochStep T P tm tsm ms e s).trained = s.trained ++ [e] := by
  unfold epochStep
  by_cases h : e % T = 0 <;> simp [h]

lemma epochStep_ended_none {α : Type} (T : ℕ) (tm tsm : ℕ → ℚ × ℚ)
    (ms : ℕ → α) (e : ℕ) (s : LoopState α) :
    (epochStep T none tm tsm ms e s).patience_ended = s.patience_ended := by
  unfold epochStep test_step_policy
  by_cases h : e % T = 0 <;> simp [h]

lemma epochStep_results_epochs {α : Type} (T : ℕ) (P : Option ℕ)
    (tm tsm : ℕ → ℚ × ℚ) (ms : ℕ → α) (e : ℕ) (s : LoopState α)
    (h : s.results.map EpochRecord.epoch
          = s.trained.filter (fun x => decide (x % T = 0))) :
    (epochStep T P tm tsm ms e s).results.map EpochRecord.epoch
      = (epochStep T P tm tsm ms e s).trained.filter (fun x => decide (x % T = 0)) := by
  unfold epochStep
  by_cases he : e % T = 0 <;> simp [he, List.filter_append, h]

lemma runFrom_ended {α : Type} (T : ℕ) (P : Option ℕ) (tm tsm : ℕ → ℚ × ℚ)
    (ms : ℕ → α) (e r : ℕ) (s : LoopState α) (h : s.patience_ended = true) :
    runFrom T P tm tsm ms e r s = s := by
  cases r with
  | zero => rfl
  | succ r => simp [runFrom, h]

lemma runFrom_results_epochs {α : Type} (T : ℕ) (P : Option ℕ)
    (tm tsm : ℕ → ℚ × ℚ) (ms : ℕ → α) (e r : ℕ) (s : LoopState α)
    (h : s.results.map EpochRecord.epoch
          = s.trained.filter (fun x => decide (x % T = 0))) :
    (runFrom T P tm tsm ms e r s).results.map EpochRecord.epoch
      = (runFrom T P tm tsm ms e r s).trained.filter (fun x => decide (x % T = 0)) := by
  induction r generalizing e s with
  | zero => simpa [runFrom] using h
  | succ r ih =>
      by_cases hend : s.patience_ended = true
      · rw [runFrom_ended T P tm tsm ms e (r + 1) s hend]
        exact h
      · rw [runFrom]
        simp only [hend, if_false, Bool.false_eq_true]
        exact ih (e + 1) _ (epochStep_results_epochs T P tm tsm ms e s h)

lemma runFrom_trained_none {α : Type} (T : ℕ) (tm tsm : ℕ → ℚ × ℚ)
    (ms : ℕ → α) (e r : ℕ) (s : LoopState α) (hs : s.patience_ended = false) :
    (runFrom T none tm tsm ms e r s).trained = s.trained ++ List.range' e r := by
  induction r generalizing e s with
  | zero => simp [runFrom]
  | succ r ih =>
      rw [runFrom]
      simp only [hs, Bool.false_eq_true, if_false]
      rw [ih (e + 1) _ (by rw [epochStep_ended_none]; exact hs)]
      rw [epochStep_trained]
      simp [List.range']

/-- C5: when the patience counter reaches the configured limit during an
evaluation, the ended flag is set; the epoch whose evaluation hit the limit
still appends its history record; and a set ended flag takes effect at the
top of the next epoch boundary: the remaining loop iterations change
nothing — no train step, no evaluation, no checkpoint write, no history
record (the loop state, traces included, stays exactly as it was). -/
theorem C5_early_stop {α : Type} (T e r : ℕ) (Pl : Option ℕ) (P : ℕ)
    (tm tsm : ℕ → ℚ × ℚ) (ms : ℕ → α) (prev loss acc : ℚ) (m : α)
    (p : PolicyState α) (s t : LoopState α)
    (he : e ≠ 0) (hlt : prev < loss) (hhit : p.patience_curr + 1 = P)
    (heval : e % T = 0) (hstop : t.patience_ended = true) :
    (test_step_policy (some P) e prev loss acc m p).patience_ended = true ∧
    (epochStep T Pl tm tsm ms e s).results
      = s.results ++ [⟨e, (tm e).1, (tm e).2, (tsm e).1, (tsm e).2⟩] ∧
    runFrom T Pl tm tsm ms e r t = t := by
  refine ⟨?_, ?_, runFrom_ended T Pl tm tsm ms e r t hstop⟩
  · simp [test_step_policy, hlt, he, hhit]
  · unfold epochStep
    simp [heval]

/-- Witness for C5: limit 2 reached at epoch 1 (counter 1 → 2) with loss
rising 0 → 1; a stopped state is left unchanged by three further epochs. -/
theorem C5_early_stop_witness :
    (test_step_policy (some 2) 1 (0 : ℚ) 1 0 (0 : ℕ) ⟨1, false, []⟩).patience_ended = true ∧
    (epochStep 1 (some 2) (fun _ => (0, 0)) (fun _ => (0, 0)) (fun _ => (0 : ℕ)) 1
        initLoopState).results
      = (initLoopState : LoopState ℕ).results
        ++ [⟨1, ((fun _ => ((0 : ℚ), (0 : ℚ))) 1).1, ((fun _ => ((0 : ℚ), (0 : ℚ))) 1).2,
             ((fun _ => ((0 : ℚ), (0 : ℚ))) 1).1, ((fun _ => ((0 : ℚ), (0 : ℚ))) 1).2⟩] ∧
    runFrom 1 (some 2) (fun _ => (0, 0)) (fun _ => (0, 0)) (fun _ => (0 : ℕ)) 1 3
        ⟨2, true, 1, [], [], [0, 1], [0, 1]⟩
      = ⟨2, true, 1, [], [], [0, 1], [0, 1]⟩ :=
  C5_early_stop 1 1 3 (some 2) 2 (fun _ => (0, 0)) (fun _ => (0, 0)) (fun _ => (0 : ℕ))
    0 1 0 0 ⟨1, false, []⟩ initLoopState ⟨2, true, 1, [], [], [0, 1], [0, 1]⟩
    (by decide) (by decide) (by decide) (by decide) (by decide)

/-- C6: the history has exactly the five columns epoch, train_loss,
train_acc, test_loss, test_acc in that fixed order, and contains exactly one
row per executed epoch `x` with `x % TEST_EVERY == 0`, never more; in
particular, with TEST_EVERY = 2, EPOCHS = 6 and no early stopping, the rows
are exactly the ones of epochs 0, 2 and 4 — history length 3. -/
theorem C6_history_rows {α : Type} (EPOCHS T : ℕ) (Pl : Option ℕ)
    (tm tsm : ℕ → ℚ × ℚ) (ms : ℕ → α) (hT : 0 < T) :
    historyColumns = ["epoch", "train_loss", "train_acc", "test_loss", "test_acc"] ∧
    (train EPOCHS T Pl tm tsm ms).results.map EpochRecord.epoch
      = (train EPOCHS T Pl tm tsm ms).trained.filter (fun x => decide (x % T = 0)) ∧
    (Pl = none → T = 2 → EPOCHS = 6 →
      (train EPOCHS T Pl tm tsm ms).results.map EpochRecord.epoch = [0, 2, 4] ∧
      (train EPOCHS T Pl tm tsm ms).results.length = 3) := by
  have hinv : (train EPOCHS T Pl tm tsm ms).results.map EpochRecord.epoch
      = (train EPOCHS T Pl tm tsm ms).trained.filter (fun x => decide (x % T = 0)) := by
    unfold train
    exact runFrom_results_epochs T Pl tm tsm ms 0 EPOCHS initLoopState (by simp [initLoopState])
  refine ⟨rfl, hinv, ?_⟩
  intro hP hT2 hE
  subst hP; subst hT2; subst hE
  have htr : (train 6 2 none tm tsm ms).trained = List.range' 0 6 := by
    unfold train
    rw [runFrom_trained_none 2 tm tsm ms 0 6 initLoopState rfl]
    simp [initLoopState]
  have hmap : (train 6 2 none tm tsm ms).results.map EpochRecord.epoch = [0, 2, 4] := by
    rw [hinv, htr]
    decide
  refine ⟨hmap, ?_⟩
  have hlen : ((train 6 2 none tm tsm ms).results.map EpochRecord.epoch).length
      = (train 6 2 none tm tsm ms).results.length := List.length_map _ _
  rw [← hlen, hmap]
  rfl

/-- Witness for C6 at EPOCHS = 6, TEST_EVERY = 2, no early stopping, and
constant metric oracles. -/
theorem C6_history_rows_witness :
    historyColumns = ["epoch", "train_loss", "train_acc", "test_loss", "test_acc"] ∧
    (train 6 2 none (fun _ => (0, 0)) (fun _ => (0, 0)) (fun _ => (0 : ℕ))).results.map
        EpochRecord.epoch
      = (train 6 2 none (fun _ => (0, 0)) (fun _ => (0, 0))
          (fun _ => (0 : ℕ))).trained.filter (fun x => decide (x % 2 = 0)) ∧
    ((none : Option ℕ) = none → (2 : ℕ) = 2 → (6 : ℕ) = 6 →
      (train 6 2 none (fun _ => (0, 0)) (fun _ => (0, 0)) (fun _ => (0 : ℕ))).results.map
          EpochRecord.epoch = [0, 2, 4] ∧
      (train 6 2 none (fun _ => (0, 0)) (fun _ => (0, 0))
          (fun _ => (0 : ℕ))).results.length = 3) :=
  C6_history_rows 6 2 none (fun _ => (0, 0)) (fun _ => (0, 0)) (fun _ => (0 : ℕ))
    (by decide)

end Wrapper
